import Mathlib

/-
Verification development for the Test Record Aggregation & Query Engine of the
precision-rifle load-development application.

The embedding follows the Python source:
  pyqt_app/utils/data_loader.py   (legacy name parser, record file loader,
                                   record merger, corpus builder)
  pyqt_app/modules/view_test.py   (mm-to-MOA unit converter, form fill-in)
  pyqt_app/modules/data_analysis.py (filter engine, selection state)

Python dictionaries with nullable values are modelled as association lists of
type List (String × Option Value): a key that is absent from the list models a
key absent from the dict (a pandas column that is NaN for that row), while a
key bound to none models a key present with value None.  Python floats are
modelled as rationals; strings are modelled with Lean strings, processed on
their character lists so that every operation is structurally recursive.
-/

/-- A scalar value stored in a record field: a string, a number, or a boolean
(numbers are modelled as rationals). -/
inductive Value where
  | str (s : String)
  | num (q : ℚ)
  | boolV (b : Bool)
deriving DecidableEq, Repr

/-- A record (Python dict with nullable values): key absent from the list means
the dict has no such key; a key bound to none means the key is present with
value None. -/
abbrev Rec := List (String × Option Value)

/-- Dictionary lookup: outer none means the key is absent, some none means the
key is present bound to None (a missing value). -/
def dlookup : Rec → String → Option (Option Value)
  | [], _ => none
  | (k', v) :: t, k => if k' = k then some v else dlookup t k

/-- Dictionary assignment d[k] = v: replaces the binding if the key is present,
otherwise appends it. -/
def dset : Rec → String → Option Value → Rec
  | [], k, v => [(k, v)]
  | (k', v') :: t, k, v => if k' = k then (k, v) :: t else (k', v') :: dset t k v

/-- Lexicographic comparison of character lists by code point, the order Python
and pandas use for strings. -/
def chLe : List Char → List Char → Bool
  | [], _ => true
  | _ :: _, [] => false
  | a :: as, b :: bs => if a = b then chLe as bs else decide (a < b)

/-- Fuel-driven worker for pySplit; the fuel starts at the length of the input
so it never runs out. -/
def pySplitGo (sep : List Char) : Nat → List Char → List Char → List (List Char)
  | 0, cs, acc => [acc.reverse ++ cs]
  | _ + 1, [], acc => [acc.reverse]
  | fuel + 1, c :: rest, acc =>
    if sep.isPrefixOf (c :: rest) then
      acc.reverse :: pySplitGo sep fuel (List.drop (sep.length - 1) rest) []
    else
      pySplitGo sep fuel rest (c :: acc)

/-- Python str.split(sep) for a non-empty separator: splits at every
non-overlapping occurrence of sep, scanning left to right. -/
def pySplit (sep : List Char) (cs : List Char) : List (List Char) :=
  pySplitGo sep cs.length cs []

/-- Numeric value of a list of decimal digit characters. -/
def digitsToNat (cs : List Char) : Nat :=
  cs.foldl (fun a c => a * 10 + (c.toNat - '0'.toNat)) 0

/-- First run of digits embedded in a string, as used by the regex search for
a plain integer token in extract_test_info_from_path (data_loader.py line 76). -/
def firstIntRun (cs : List Char) : Option Nat :=
  match cs.dropWhile (fun c => !c.isDigit) with
  | [] => none
  | c :: rest => some (digitsToNat ((c :: rest).takeWhile Char.isDigit))

/-- First embedded decimal token (digits, optional single dot, digits), as used
by the regex searches for weight/charge/coal/b2o in
extract_test_info_from_path (data_loader.py lines 79-89). -/
def firstDecRun (cs : List Char) : Option ℚ :=
  match cs.dropWhile (fun c => !c.isDigit) with
  | [] => none
  | c :: rest =>
    let intPart := (c :: rest).takeWhile Char.isDigit
    let afterInt := (c :: rest).dropWhile Char.isDigit
    match afterInt with
    | '.' :: rest2 =>
      let fracPart := rest2.takeWhile Char.isDigit
      some ((digitsToNat intPart : ℚ) + (digitsToNat fracPart : ℚ) / (10 ^ fracPart.length : ℚ))
    | _ => some ((digitsToNat intPart : ℚ))

/-- Python str.replace for the single characters used by the parser (hyphens
restored to spaces in the rifle field, data_loader.py line 98). -/
def chReplace (old new : Char) (cs : List Char) : List Char :=
  cs.map (fun c => if c = old then new else c)

/-- Body of extract_test_info_from_path (data_loader.py lines 38-113): the part
of the function inside the try block.  An error models the ValueError raised by
unpacking a split that does not produce exactly two parts, or the IndexError
raised by indexing fewer parts than the pattern needs (indices 0 through 11 are
read unconditionally; index 12, the primer, is guarded by a length test). -/
def extractBody (dir_name : String) : Except Unit Rec :=
  match pySplit "__".data dir_name.data with
  | [dateChars, testInfoChars] =>
    let parts := pySplit "_".data testInfoChars
    if parts.length < 12 then Except.error () else
    let distance := parts.getD 0 []
    let calibre := parts.getD 1 []
    let rifle := parts.getD 2 []
    let case_brand := parts.getD 3 []
    let bullet_brand := parts.getD 4 []
    let bullet_model := parts.getD 5 []
    let bullet_weight := parts.getD 6 []
    let powder_brand := parts.getD 7 []
    let powder_model := parts.getD 8 []
    let powder_charge := parts.getD 9 []
    let coal := parts.getD 10 []
    let b2o := parts.getD 11 []
    let primer := if parts.length > 12 then parts.getD 12 [] else "Unknown".data
    let distance_value : ℚ := ((firstIntRun distance).map (fun n => (n : ℚ))).getD 0
    let bullet_weight_value : ℚ := (firstDecRun bullet_weight).getD 0
    let powder_charge_value : ℚ := (firstDecRun powder_charge).getD 0
    let coal_value : ℚ := (firstDecRun coal).getD 0
    let b2o_value : ℚ := (firstDecRun b2o).getD 0
    Except.ok [
      ("test_id", some (Value.str dir_name)),
      ("date", some (Value.str (String.mk dateChars))),
      ("distance", some (Value.str (String.mk distance))),
      ("distance_m", some (Value.num distance_value)),
      ("calibre", some (Value.str (String.mk calibre))),
      ("rifle", some (Value.str (String.mk (chReplace '-' ' ' rifle)))),
      ("case_brand", some (Value.str (String.mk case_brand))),
      ("bullet_brand", some (Value.str (String.mk bullet_brand))),
      ("bullet_model", some (Value.str (String.mk bullet_model))),
      ("bullet_weight", some (Value.str (String.mk bullet_weight))),
      ("bullet_weight_gr", some (Value.num bullet_weight_value)),
      ("powder_brand", some (Value.str (String.mk powder_brand))),
      ("powder_model", some (Value.str (String.mk powder_model))),
      ("powder_charge", some (Value.str (String.mk powder_charge))),
      ("powder_charge_gr", some (Value.num powder_charge_value)),
      ("coal", some (Value.str (String.mk coal))),
      ("coal_in", some (Value.num coal_value)),
      ("b2o", some (Value.str (String.mk b2o))),
      ("b2o_in", some (Value.num b2o_value)),
      ("primer", some (Value.str (String.mk primer)))]
  | _ => Except.error ()

/-- Degraded record returned when parsing a directory name fails
(data_loader.py lines 117-138): string fields become the literal "Unknown" and
numeric fields become the number 0. -/
def fallbackRec (dir_name : String) : Rec := [
  ("test_id", some (Value.str dir_name)),
  ("date", some (Value.str "Unknown")),
  ("distance", some (Value.str "Unknown")),
  ("distance_m", some (Value.num 0)),
  ("calibre", some (Value.str "Unknown")),
  ("rifle", some (Value.str "Unknown")),
  ("case_brand", some (Value.str "Unknown")),
  ("bullet_brand", some (Value.str "Unknown")),
  ("bullet_model", some (Value.str "Unknown")),
  ("bullet_weight", some (Value.str "Unknown")),
  ("bullet_weight_gr", some (Value.num 0)),
  ("powder_brand", some (Value.str "Unknown")),
  ("powder_model", some (Value.str "Unknown")),
  ("powder_charge", some (Value.str "Unknown")),
  ("powder_charge_gr", some (Value.num 0)),
  ("coal", some (Value.str "Unknown")),
  ("coal_in", some (Value.num 0)),
  ("b2o", some (Value.str "Unknown")),
  ("b2o_in", some (Value.num 0)),
  ("primer", some (Value.str "Unknown"))]

/-- Legacy name parser extract_test_info_from_path (data_loader.py lines
23-138): the try/except wrapper around extractBody, catching ValueError,
IndexError and AttributeError and degrading to fallbackRec. -/
def extract_test_info_from_path (dir_name : String) : Rec :=
  match extractBody dir_name with
  | Except.ok r => r
  | Except.error _ => fallbackRec dir_name

/-- Parsed content of a group.yaml file, holding exactly the values that
load_group_data reads (data_loader.py lines 241-327).  Every field is
nullable: none covers both an absent key and an explicit null, which Python's
dict.get makes indistinguishable. -/
structure YamlContent where
  date : Option Value := none
  distance_m : Option Value := none
  platform_calibre : Option Value := none
  platform_rifle : Option Value := none
  platform_barrel_length_in : Option Value := none
  platform_twist_rate : Option Value := none
  bullet_brand : Option Value := none
  bullet_model : Option Value := none
  bullet_weight_gr : Option Value := none
  bullet_lot : Option Value := none
  powder_brand : Option Value := none
  powder_model : Option Value := none
  powder_charge_gr : Option Value := none
  powder_lot : Option Value := none
  coal_in : Option Value := none
  b2o_in : Option Value := none
  case_brand : Option Value := none
  case_lot : Option Value := none
  case_neck_turned : Option Value := none
  case_brass_sizing : Option Value := none
  case_bushing_size : Option Value := none
  case_shoulder_bump : Option Value := none
  case_mandrel : Option Value := none
  case_mandrel_size : Option Value := none
  primer_brand : Option Value := none
  primer_model : Option Value := none
  primer_lot : Option Value := none
  group_es_mm : Option Value := none
  group_es_moa : Option Value := none
  group_es_x_mm : Option Value := none
  group_es_x_moa : Option Value := none
  group_es_y_mm : Option Value := none
  group_es_y_moa : Option Value := none
  mean_radius_mm : Option Value := none
  mean_radius_moa : Option Value := none
  poi_x_mm : Option Value := none
  poi_x_moa : Option Value := none
  poi_y_mm : Option Value := none
  poi_y_moa : Option Value := none
  shots : Option Value := none
  avg_velocity_fps : Option Value := none
  sd_fps : Option Value := none
  es_fps : Option Value := none
  env_temperature_c : Option Value := none
  env_humidity_percent : Option Value := none
  env_pressure_hpa : Option Value := none
  env_wind_speed_mps : Option Value := none
  env_wind_dir_deg : Option Value := none
  env_weather : Option Value := none
deriving DecidableEq

/-- State of the group.yaml file in a test directory: absent, present but empty
or not a mapping, or present with parsed content. -/
inductive YamlFile where
  | absent
  | invalid
  | content (c : YamlContent)
deriving DecidableEq

/-- Record returned by load_group_data when group.yaml does not exist
(data_loader.py lines 153-193): every key present, every value None. -/
def absentYamlRec : Rec := [
  ("group_es_mm", none), ("group_es_moa", none),
  ("group_es_x_mm", none), ("group_es_x_moa", none),
  ("group_es_y_mm", none), ("group_es_y_moa", none),
  ("mean_radius_mm", none), ("mean_radius_moa", none),
  ("poi_x_mm", none), ("poi_x_moa", none),
  ("poi_y_mm", none), ("poi_y_moa", none),
  ("shots", none),
  ("avg_velocity_fps", none), ("sd_fps", none), ("es_fps", none),
  ("temperature_c", none), ("humidity_pct", none), ("pressure_hpa", none),
  ("wind_speed_ms", none), ("wind_direction", none), ("light_conditions", none),
  ("barrel_length_in", none), ("twist_rate", none),
  ("bullet_lot", none), ("powder_lot", none), ("powder_model", none),
  ("case_brand", none), ("case_lot", none), ("neck_turned", none),
  ("brass_sizing", none), ("bushing_size", none), ("shoulder_bump", none),
  ("mandrel", none), ("mandrel_size", none),
  ("primer_brand", none), ("primer_model", none), ("primer_lot", none)]

/-- Record returned by load_group_data when the YAML file parses to None or to
something other than a mapping (data_loader.py lines 200-239); the exception
handler at lines 328-367 returns the same record.  It differs from
absentYamlRec: the mandrel and mandrel_size keys are not present. -/
def invalidYamlRec : Rec := [
  ("group_es_mm", none), ("group_es_moa", none),
  ("group_es_x_mm", none), ("group_es_x_moa", none),
  ("group_es_y_mm", none), ("group_es_y_moa", none),
  ("mean_radius_mm", none), ("mean_radius_moa", none),
  ("poi_x_mm", none), ("poi_x_moa", none),
  ("poi_y_mm", none), ("poi_y_moa", none),
  ("shots", none),
  ("avg_velocity_fps", none), ("sd_fps", none), ("es_fps", none),
  ("temperature_c", none), ("humidity_pct", none), ("pressure_hpa", none),
  ("wind_speed_ms", none), ("wind_direction", none), ("light_conditions", none),
  ("barrel_length_in", none), ("twist_rate", none),
  ("bullet_lot", none), ("powder_lot", none), ("powder_model", none),
  ("case_brand", none), ("case_lot", none), ("neck_turned", none),
  ("brass_sizing", none), ("bushing_size", none), ("shoulder_bump", none),
  ("primer_brand", none), ("primer_model", none), ("primer_lot", none)]

/-- Record returned by load_group_data on success (data_loader.py lines
260-327): the nested structure flattened into the table's field names. -/
def successYamlRec (c : YamlContent) : Rec := [
  ("date", c.date),
  ("distance_m", c.distance_m),
  ("calibre", c.platform_calibre),
  ("rifle", c.platform_rifle),
  ("bullet_brand", c.bullet_brand),
  ("bullet_model", c.bullet_model),
  ("bullet_weight_gr", c.bullet_weight_gr),
  ("powder_brand", c.powder_brand),
  ("powder_model", c.powder_model),
  ("powder_charge_gr", c.powder_charge_gr),
  ("coal_in", c.coal_in),
  ("b2o_in", c.b2o_in),
  ("group_es_mm", c.group_es_mm),
  ("group_es_moa", c.group_es_moa),
  ("group_es_x_mm", c.group_es_x_mm),
  ("group_es_x_moa", c.group_es_x_moa),
  ("group_es_y_mm", c.group_es_y_mm),
  ("group_es_y_moa", c.group_es_y_moa),
  ("mean_radius_mm", c.mean_radius_mm),
  ("mean_radius_moa", c.mean_radius_moa),
  ("poi_x_mm", c.poi_x_mm),
  ("poi_x_moa", c.poi_x_moa),
  ("poi_y_mm", c.poi_y_mm),
  ("poi_y_moa", c.poi_y_moa),
  ("shots", c.shots),
  ("avg_velocity_fps", c.avg_velocity_fps),
  ("sd_fps", c.sd_fps),
  ("es_fps", c.es_fps),
  ("temperature_c", c.env_temperature_c),
  ("humidity_pct", c.env_humidity_percent),
  ("pressure_hpa", c.env_pressure_hpa),
  ("wind_speed_ms", c.env_wind_speed_mps),
  ("wind_direction", c.env_wind_dir_deg),
  ("light_conditions", c.env_weather),
  ("barrel_length_in", c.platform_barrel_length_in),
  ("twist_rate", c.platform_twist_rate),
  ("bullet_lot", c.bullet_lot),
  ("powder_lot", c.powder_lot),
  ("case_brand", c.case_brand),
  ("case_lot", c.case_lot),
  ("neck_turned", c.case_neck_turned),
  ("brass_sizing", c.case_brass_sizing),
  ("bushing_size", c.case_bushing_size),
  ("shoulder_bump", c.case_shoulder_bump),
  ("mandrel", c.case_mandrel),
  ("mandrel_size", c.case_mandrel_size),
  ("primer_brand", c.primer_brand),
  ("primer_model", c.primer_model),
  ("primer_lot", c.primer_lot)]

/-- Record file loader load_group_data (data_loader.py lines 141-367). -/
def load_group_data : YamlFile → Rec
  | YamlFile.absent => absentYamlRec
  | YamlFile.invalid => invalidYamlRec
  | YamlFile.content c => successYamlRec c

/-- One iteration of the merge loop in load_all_test_data (data_loader.py
lines 476-481): a non-None YAML value overrides; a None YAML value falls back
to the directory-parsed value when that one is present and non-None. -/
def mergeStep (test_info : Rec) (merged : Rec) (kv : String × Option Value) : Rec :=
  match kv.2 with
  | some v => dset merged kv.1 (some v)
  | none =>
    match dlookup test_info kv.1 with
    | some (some v) => dset merged kv.1 (some v)
    | _ => merged

/-- Record merger from load_all_test_data (data_loader.py lines 471-484):
start from a copy of the directory-parsed record, fold the YAML record over it
with mergeStep, then force test_id back to the value taken from the parsed
record. -/
def mergeRecords (test_info group_data : Rec) (test_id : Option Value) : Rec :=
  dset (group_data.foldl (mergeStep test_info) test_info) "test_id" test_id

/-- A test directory as the corpus builder sees it: its name and the state of
its group.yaml file. -/
structure TestDir where
  name : String
  yaml : YamlFile
deriving DecidableEq

/-- Per-directory body of the corpus loop (data_loader.py lines 462-488):
parse the name, load the YAML record, merge.  The body cannot raise: both
helpers catch internally, so the surrounding try/except never skips a
directory. -/
def processDir (d : TestDir) : Rec :=
  let test_info := extract_test_info_from_path d.name
  let test_id := (dlookup test_info "test_id").getD none
  let group_data := load_group_data d.yaml
  mergeRecords test_info group_data test_id

/-- Full-string numeric parse modelling pandas to_numeric with coercion on the
powder_charge_gr column (data_loader.py line 506): digits with an optional
single decimal point; anything else coerces to NaN, which fillna(0) turns
into 0. -/
def parseNumFull (cs : List Char) : Option ℚ :=
  let intPart := cs.takeWhile Char.isDigit
  let afterInt := cs.dropWhile Char.isDigit
  if intPart.isEmpty then none
  else
    match afterInt with
    | [] => some ((digitsToNat intPart : ℚ))
    | '.' :: rest =>
      if rest.all Char.isDigit then
        some ((digitsToNat intPart : ℚ) + (digitsToNat rest : ℚ) / (10 ^ rest.length : ℚ))
      else none
    | _ => none

/-- Sort key for the date column after fillna('1900-01-01')
(data_loader.py line 505). -/
def dateKey (r : Rec) : String :=
  match dlookup r "date" with
  | some (some (Value.str s)) => s
  | _ => "1900-01-01"

/-- Sort key for powder_charge_gr after to_numeric(errors='coerce').fillna(0)
(data_loader.py line 506). -/
def chargeKey (r : Rec) : ℚ :=
  match dlookup r "powder_charge_gr" with
  | some (some (Value.num q)) => q
  | some (some (Value.str s)) => (parseNumFull s.data).getD 0
  | some (some (Value.boolV b)) => if b then 1 else 0
  | _ => 0

/-- The sort at data_loader.py line 507 compares date strings and only then
powder charges; it raises (and is skipped by the except at line 511) when the
date column mixes strings with non-strings, which this predicate rules out. -/
def allDatesSortable (rs : List Rec) : Bool :=
  rs.all (fun r =>
    match dlookup r "date" with
    | some (some (Value.str _)) => true
    | some (some _) => false
    | _ => true)

/-- Row order used by sort_values(['date', 'powder_charge_gr']). -/
def recLe (a b : Rec) : Bool :=
  if dateKey a = dateKey b then decide (chargeKey a ≤ chargeKey b)
  else chLe (dateKey a).data (dateKey b).data

/-- Insertion into a sorted list, the worker for insSort. -/
def insertRec (le : Rec → Rec → Bool) (r : Rec) : List Rec → List Rec
  | [] => [r]
  | s :: t => if le r s then r :: s :: t else s :: insertRec le r t

/-- Structurally recursive sort used to model sort_values. -/
def insSort (le : Rec → Rec → Bool) : List Rec → List Rec
  | [] => []
  | r :: t => insertRec le r (insSort le t)

/-- Sorting step of load_all_test_data (data_loader.py lines 501-512): sort by
(date, powder_charge_gr) with missing values filled, keeping the original
order when the mixed-type comparison would raise and be caught. -/
def sortRecords (rs : List Rec) : List Rec :=
  if allDatesSortable rs then insSort recLe rs else rs

/-- Corpus builder load_all_test_data (data_loader.py lines 425-518) over an
already-enumerated list of test directories: every directory contributes one
merged record (the per-directory try/except never fires because the helpers
catch internally), and the result is sorted. -/
def loadAllTestData (dirs : List TestDir) : List Rec :=
  sortRecords (dirs.map processDir)

/-- Unit converter _mm_to_moa (view_test.py lines 1642-1660): missing inputs
or a non-positive distance yield missing; otherwise MOA is
(mm * 3438) / (distance_m * 1000).  Totality of this definition models the
try/except wrapper: no input raises. -/
def mmToMoa : Option ℚ → Option ℚ → Option ℚ
  | some m, some d => if d ≤ 0 then none else some ((m * 3438) / (d * 1000))
  | _, _ => none

/-- Python truthiness for a nullable scalar: None, empty string, zero and
False are falsy. -/
def pyTruthy : Option Value → Bool
  | none => false
  | some (Value.str s) => !(s = "")
  | some (Value.num q) => !(q = 0)
  | some (Value.boolV b) => b

/-- Python float(x) on a nullable scalar: numbers pass through, booleans
become 0 or 1, numeric strings parse, and everything else raises
(ValueError/TypeError), modelled as none. -/
def toFloat : Option Value → Option ℚ
  | some (Value.num q) => some q
  | some (Value.boolV b) => some (if b then 1 else 0)
  | some (Value.str s) => parseNumFull s.data
  | none => none

/-- Per-field MOA fill-in of populate_form (view_test.py lines 2124-2210,
identical for each of the six linear fields): when the mm value and the
distance are truthy and the stored MOA value is falsy, the displayed MOA is
computed with _mm_to_moa; otherwise the stored MOA value is displayed
unchanged.  The result is the value placed in the MOA text field, leaving out
the two-decimal string formatting, which is pure presentation. -/
def populateMoaField (mm moa distance_m : Option Value) : Option Value :=
  if pyTruthy mm && !pyTruthy moa && pyTruthy distance_m then
    match toFloat mm, toFloat distance_m with
    | some m, some d => (mmToMoa (some m) (some d)).map Value.num
    | _, _ => none
  else moa

/-- One row of the analysis table, with the columns the filter engine reads
(data_analysis.py apply_filters).  A none value models a NaN cell. -/
structure Row where
  test_id : String := ""
  date : Option String := none
  calibre : Option String := none
  rifle : Option String := none
  bullet_brand : Option String := none
  powder_brand : Option String := none
  bullet_weight_gr : Option ℚ := none
  powder_charge_gr : Option ℚ := none
  coal_in : Option ℚ := none
  b2o_in : Option ℚ := none
  shots : Option ℚ := none
  group_es_mm : Option ℚ := none
  group_es_moa : Option ℚ := none
  mean_radius_mm : Option ℚ := none
  group_es_x_mm : Option ℚ := none
  group_es_y_mm : Option ℚ := none
  poi_x_mm : Option ℚ := none
  poi_y_mm : Option ℚ := none
  avg_velocity_fps : Option ℚ := none
  sd_fps : Option ℚ := none
  es_fps : Option ℚ := none
  temperature_c : Option ℚ := none
  humidity_pct : Option ℚ := none
  pressure_hpa : Option ℚ := none
  wind_speed_ms : Option ℚ := none
  wind_direction : Option ℚ := none
  light_conditions : Option String := none
deriving DecidableEq

/-- One DataFrame row together with its pandas index label and its value in
the selected column (meaningful only when the frame has that column). -/
structure Entry where
  idx : Nat
  row : Row
  sel : Bool
deriving DecidableEq

/-- A DataFrame as the filter engine sees it.  cols lists the data columns of
the frame: pandas builds the column set as the union of the record keys, so a
field no scanned test provided has no column at all, and the filter branches
test membership before touching it.  hasSel separately records whether the
transient selected column exists, as the source tests it separately from the
data columns. -/
structure Frame where
  hasSel : Bool
  cols : List String
  entries : List Entry
deriving DecidableEq

/-- A numeric filter bound as read from its QLineEdit: the empty string, text
that float()/int() rejects, or a parsed value. -/
inductive BoundInput where
  | empty
  | invalid
  | val (q : ℚ)
deriving DecidableEq

/-- Series comparison col >= a in pandas: False on NaN. -/
def pandasGe (v : Option ℚ) (a : ℚ) : Bool :=
  match v with
  | some x => decide (a ≤ x)
  | none => false

/-- Series comparison col <= b in pandas: False on NaN. -/
def pandasLe (v : Option ℚ) (b : ℚ) : Bool :=
  match v with
  | some x => decide (x ≤ b)
  | none => false

/-- Date-string comparison col >= a in pandas: False on NaN. -/
def pandasStrGe (v : Option String) (a : String) : Bool :=
  match v with
  | some s => chLe a.data s.data
  | none => false

/-- Date-string comparison col <= b in pandas: False on NaN. -/
def pandasStrLe (v : Option String) (b : String) : Bool :=
  match v with
  | some s => chLe s.data b.data
  | none => false

/-- Date range filter (data_analysis.py lines 1216-1234): always attempted,
because the QDateEdit widgets always hold a date, but the mask is applied only
when the date column exists (line 1223; when absent only a warning is
printed); the mask is notna AND (>= from) AND (<= to). -/
def dateStep (fromDate toDate : String) (f : Frame) : Frame :=
  if f.cols.contains "date" then
    { f with entries := f.entries.filter (fun e =>
        e.row.date.isSome && pandasStrGe e.row.date fromDate && pandasStrLe e.row.date toDate) }
  else f

/-- Equality filter on a combo box (data_analysis.py lines 1236-1246, 1270):
skipped when the combo shows the wildcard "All".  These branches have no
column-existence guard and no try/except, so subscripting a frame that lacks
the column raises KeyError out of apply_filters, modelled as an error.  (The
parser supplies these columns for every record, so the error path is
unreachable from a corpus build.) -/
def equalityStep (proj : Row → Option String) (colName : String) (combo : String)
    (f : Frame) : Except Unit Frame :=
  if combo = "All" then Except.ok f
  else if f.cols.contains colName then
    Except.ok { f with entries := f.entries.filter (fun e => decide (proj e.row = some combo)) }
  else Except.error ()

/-- Numeric range filter without selection handling (the pattern at
data_analysis.py lines 1249-1268 and its many repetitions): applied only when
both bound texts are non-empty and both parse, and only when the field's
column exists in the frame (e.g. line 1255; when absent only a warning is
printed and no filtering happens); the mask is notna AND (>= min) AND (<= max). -/
def rangeStep (proj : Row → Option ℚ) (colName : String) (mn mx : BoundInput)
    (f : Frame) : Frame :=
  match mn, mx with
  | BoundInput.val a, BoundInput.val b =>
    if f.cols.contains colName then
      { f with entries := f.entries.filter (fun e =>
          (proj e.row).isSome && pandasGe (proj e.row) a && pandasLe (proj e.row) b) }
    else f
  | _, _ => f

/-- Index-keyed lookup in the captured selection state, modelling
selection_map.get(x, True) at data_analysis.py line 1368. -/
def lookupIdx : List (Nat × Bool) → Nat → Option Bool
  | [], _ => none
  | (i, b) :: t, j => if i = j then some b else lookupIdx t j

/-- Numeric range filter with the selection capture/restore found only in the
shots and group_es_mm branches (data_analysis.py lines 1343-1376 and
1379-1412): the whole capture/mask/restore block sits inside the
column-existence guard (lines 1349, 1369-1370), so an absent column skips it
all; when the selected column exists, its values are captured keyed by index
before filtering and written back to the surviving rows afterwards,
defaulting unknown indices to True. -/
def selRangeStep (proj : Row → Option ℚ) (colName : String) (mn mx : BoundInput)
    (f : Frame) : Frame :=
  match mn, mx with
  | BoundInput.val a, BoundInput.val b =>
    if f.cols.contains colName then
      let selectionState : List (Nat × Bool) :=
        if f.hasSel then f.entries.map (fun e => (e.idx, e.sel)) else []
      let kept := f.entries.filter (fun e =>
        (proj e.row).isSome && pandasGe (proj e.row) a && pandasLe (proj e.row) b)
      let restored :=
        if f.hasSel && selectionState.length > 0 then
          kept.map (fun e => { e with sel := (lookupIdx selectionState e.idx).getD true })
        else kept
      { f with entries := restored }
    else f
  | _, _ => f

/-- Set-membership filter on the light-conditions checkboxes
(data_analysis.py lines 1726-1734): a no-op when no box is checked, and a
no-op when the light_conditions column is absent (line 1730); NaN is never a
member. -/
def membershipStep (checked : List String) (f : Frame) : Frame :=
  if checked.isEmpty then f
  else if f.cols.contains "light_conditions" then
    { f with entries := f.entries.filter (fun e =>
        match e.row.light_conditions with
        | some s => checked.contains s
        | none => false) }
  else f

/-- Backward-compatibility range filter (data_analysis.py lines 1737-1757):
the widgets may be None, the bounds must be non-empty and parse, and the mask
has no notna term; pandas still excludes NaN because both comparisons are
False on NaN.  These branches catch only ValueError, so subscripting a frame
that lacks the column raises KeyError out of apply_filters, modelled as an
error. -/
def compatStep (proj : Row → Option ℚ) (colName : String) (mn mx : Option BoundInput)
    (f : Frame) : Except Unit Frame :=
  match mn, mx with
  | some (BoundInput.val a), some (BoundInput.val b) =>
    if f.cols.contains colName then
      Except.ok { f with entries := f.entries.filter (fun e =>
          pandasGe (proj e.row) a && pandasLe (proj e.row) b) }
    else Except.error ()
  | _, _ => Except.ok f

/-- The filter widget state read by apply_filters: the two date edits, the
four combo boxes, the min/max text of every numeric range, the checked
light-conditions boxes, and the backward-compatibility aliases, which are
None until reset_filters assigns them (data_analysis.py lines 222-225,
1846-1849). -/
structure FilterInputs where
  date_from : String
  date_to : String
  calibre_combo : String := "All"
  rifle_combo : String := "All"
  bullet_brand_combo : String := "All"
  powder_brand_combo : String := "All"
  bullet_weight_min : BoundInput := BoundInput.empty
  bullet_weight_max : BoundInput := BoundInput.empty
  charge_min : BoundInput := BoundInput.empty
  charge_max : BoundInput := BoundInput.empty
  coal_min : BoundInput := BoundInput.empty
  coal_max : BoundInput := BoundInput.empty
  b2o_min : BoundInput := BoundInput.empty
  b2o_max : BoundInput := BoundInput.empty
  shots_min : BoundInput := BoundInput.empty
  shots_max : BoundInput := BoundInput.empty
  group_es_min : BoundInput := BoundInput.empty
  group_es_max : BoundInput := BoundInput.empty
  group_es_moa_min : BoundInput := BoundInput.empty
  group_es_moa_max : BoundInput := BoundInput.empty
  mean_radius_min : BoundInput := BoundInput.empty
  mean_radius_max : BoundInput := BoundInput.empty
  group_es_x_min : BoundInput := BoundInput.empty
  group_es_x_max : BoundInput := BoundInput.empty
  group_es_y_min : BoundInput := BoundInput.empty
  group_es_y_max : BoundInput := BoundInput.empty
  poi_x_min : BoundInput := BoundInput.empty
  poi_x_max : BoundInput := BoundInput.empty
  poi_y_min : BoundInput := BoundInput.empty
  poi_y_max : BoundInput := BoundInput.empty
  avg_velocity_min : BoundInput := BoundInput.empty
  avg_velocity_max : BoundInput := BoundInput.empty
  sd_velocity_min : BoundInput := BoundInput.empty
  sd_velocity_max : BoundInput := BoundInput.empty
  es_velocity_min : BoundInput := BoundInput.empty
  es_velocity_max : BoundInput := BoundInput.empty
  temperature_min : BoundInput := BoundInput.empty
  temperature_max : BoundInput := BoundInput.empty
  humidity_min : BoundInput := BoundInput.empty
  humidity_max : BoundInput := BoundInput.empty
  pressure_min : BoundInput := BoundInput.empty
  pressure_max : BoundInput := BoundInput.empty
  wind_speed_min : BoundInput := BoundInput.empty
  wind_speed_max : BoundInput := BoundInput.empty
  wind_direction_min : BoundInput := BoundInput.empty
  wind_direction_max : BoundInput := BoundInput.empty
  light_conditions_checked : List String := []
  group_min : Option BoundInput := none
  group_max : Option BoundInput := none
  velocity_min : Option BoundInput := none
  velocity_max : Option BoundInput := none
deriving DecidableEq

/-- Filter engine apply_filters (data_analysis.py lines 1212-1757): starts
from a copy of all_data and applies every filter in source order.  The result
is an Except because the equality and backward-compatibility branches can
raise an uncaught KeyError when their column is absent; every other branch
skips or warns instead of raising. -/
def applyFilters (inp : FilterInputs) (all_data : Frame) : Except Unit Frame := do
  let f := all_data
  let f := dateStep inp.date_from inp.date_to f
  let f ← equalityStep Row.calibre "calibre" inp.calibre_combo f
  let f ← equalityStep Row.rifle "rifle" inp.rifle_combo f
  let f ← equalityStep Row.bullet_brand "bullet_brand" inp.bullet_brand_combo f
  let f := rangeStep Row.bullet_weight_gr "bullet_weight_gr" inp.bullet_weight_min
    inp.bullet_weight_max f
  let f ← equalityStep Row.powder_brand "powder_brand" inp.powder_brand_combo f
  let f := rangeStep Row.powder_charge_gr "powder_charge_gr" inp.charge_min inp.charge_max f
  let f := rangeStep Row.coal_in "coal_in" inp.coal_min inp.coal_max f
  let f := rangeStep Row.b2o_in "b2o_in" inp.b2o_min inp.b2o_max f
  let f := selRangeStep Row.shots "shots" inp.shots_min inp.shots_max f
  let f := selRangeStep Row.group_es_mm "group_es_mm" inp.group_es_min inp.group_es_max f
  let f := rangeStep Row.group_es_moa "group_es_moa" inp.group_es_moa_min
    inp.group_es_moa_max f
  let f := rangeStep Row.mean_radius_mm "mean_radius_mm" inp.mean_radius_min
    inp.mean_radius_max f
  let f := rangeStep Row.group_es_x_mm "group_es_x_mm" inp.group_es_x_min inp.group_es_x_max f
  let f := rangeStep Row.group_es_y_mm "group_es_y_mm" inp.group_es_y_min inp.group_es_y_max f
  let f := rangeStep Row.poi_x_mm "poi_x_mm" inp.poi_x_min inp.poi_x_max f
  let f := rangeStep Row.poi_y_mm "poi_y_mm" inp.poi_y_min inp.poi_y_max f
  let f := rangeStep Row.avg_velocity_fps "avg_velocity_fps" inp.avg_velocity_min
    inp.avg_velocity_max f
  let f := rangeStep Row.sd_fps "sd_fps" inp.sd_velocity_min inp.sd_velocity_max f
  let f := rangeStep Row.es_fps "es_fps" inp.es_velocity_min inp.es_velocity_max f
  let f := rangeStep Row.temperature_c "temperature_c" inp.temperature_min
    inp.temperature_max f
  let f := rangeStep Row.humidity_pct "humidity_pct" inp.humidity_min inp.humidity_max f
  let f := rangeStep Row.pressure_hpa "pressure_hpa" inp.pressure_min inp.pressure_max f
  let f := rangeStep Row.wind_speed_ms "wind_speed_ms" inp.wind_speed_min inp.wind_speed_max f
  let f := rangeStep Row.wind_direction "wind_direction" inp.wind_direction_min
    inp.wind_direction_max f
  let f := membershipStep inp.light_conditions_checked f
  let f ← compatStep Row.group_es_mm "group_es_mm" inp.group_min inp.group_max f
  let f ← compatStep Row.avg_velocity_fps "avg_velocity_fps" inp.velocity_min
    inp.velocity_max f
  return f

/-- Add the selected column set to True when it is missing, the step at
data_analysis.py lines 910-912 and 1762-1764. -/
def ensureSelected (f : Frame) : Frame :=
  if f.hasSel then f
  else { f with hasSel := true, entries := f.entries.map (fun e => { e with sel := true }) }

/-- The two DataFrames the analysis tab keeps: all_data, and the
filtered_data shown in the table. -/
structure AnalysisState where
  all_data : Frame
  filtered_data : Frame
deriving DecidableEq

/-- Tail of load_data (data_analysis.py lines 908-915): filtered_data becomes
a copy of all_data with the selected column added, and the table model is
pointed at filtered_data. -/
def loadData (all : Frame) : AnalysisState :=
  { all_data := all, filtered_data := ensureSelected all }

/-- Toggle the sel flag of the entry at a positional index. -/
def toggleAt : List Entry → Nat → List Entry
  | [], _ => []
  | e :: t, 0 => { e with sel := !e.sel } :: t
  | e :: t, n + 1 => e :: toggleAt t n

/-- Checkbox toggle TestModel.setData (data_analysis.py lines 172-200): flips
the selected cell of the clicked row of the model's DataFrame, which is
filtered_data; all_data is untouched.  Without a selected column the read
raises KeyError and the handler returns False without changing anything. -/
def toggleSelection (s : AnalysisState) (i : Nat) : AnalysisState :=
  if s.filtered_data.hasSel then
    { s with filtered_data :=
        { s.filtered_data with entries := toggleAt s.filtered_data.entries i } }
  else s

/-- Tail of apply_filters (data_analysis.py lines 1759-1764): when the filter
chain does not raise, its output replaces filtered_data and the selected
column is added set to True when it is missing; when it raises, the exception
propagates and filtered_data is never assigned. -/
def applyFiltersState (inp : FilterInputs) (s : AnalysisState) : Except Unit AnalysisState :=
  match applyFilters inp s.all_data with
  | Except.ok f => Except.ok { s with filtered_data := ensureSelected f }
  | Except.error e => Except.error e

/-- Looking up a key that was just assigned returns the assigned value. -/
theorem dlookup_dset_self (r : Rec) (k : String) (v : Option Value) :
    dlookup (dset r k v) k = some v := by
  induction r with
  | nil => simp [dset, dlookup]
  | cons h t ih =>
    obtain ⟨k', v'⟩ := h
    by_cases hk : k' = k
    · simp [dset, hk, dlookup]
    · simp [dset, hk, dlookup, ih]

/-- Assigning one key leaves lookups of other keys unchanged. -/
theorem dlookup_dset_ne (r : Rec) (k k' : String) (v : Option Value) (h : k' ≠ k) :
    dlookup (dset r k v) k' = dlookup r k' := by
  have hne : k ≠ k' := Ne.symm h
  induction r with
  | nil => simp [dset, dlookup, hne]
  | cons hd t ih =>
    obtain ⟨k₀, v₀⟩ := hd
    by_cases hk : k₀ = k
    · subst hk
      simp [dset, dlookup, hne]
    · simp [dset, hk, dlookup, ih]

/-- A key outside the key list of a record looks up to none. -/
theorem dlookup_eq_none_of_not_mem (r : Rec) (k : String) (h : k ∉ r.map Prod.fst) :
    dlookup r k = none := by
  induction r with
  | nil => rfl
  | cons hd t ih =>
    obtain ⟨k₀, v₀⟩ := hd
    simp only [List.map_cons, List.mem_cons, not_or] at h
    simp [dlookup, Ne.symm h.1, ih h.2]

/-- A merge-loop iteration for one YAML key never changes the lookup of a
different key. -/
theorem mergeStep_lookup_ne (ti acc : Rec) (kv : String × Option Value) (k : String)
    (h : kv.1 ≠ k) : dlookup (mergeStep ti acc kv) k = dlookup acc k := by
  obtain ⟨k₀, v₀⟩ := kv
  have hne : k ≠ k₀ := Ne.symm h
  cases v₀ with
  | some v => simp [mergeStep, dlookup_dset_ne _ _ _ _ hne]
  | none =>
    simp only [mergeStep]
    cases dlookup ti k₀ with
    | none => rfl
    | some o =>
      cases o with
      | none => rfl
      | some v => simp [dlookup_dset_ne _ _ _ _ hne]

/-- Lookup through the merge fold of load_all_test_data: a non-None YAML value
wins, a None YAML value falls back to a non-None parsed value, and a key the
YAML record does not bind keeps the accumulator's binding. -/
theorem mergeFold_lookup (ti : Rec) (gd : Rec) (k : String)
    (hnd : (gd.map Prod.fst).Nodup) :
    ∀ acc : Rec,
      (∀ v, dlookup gd k = some (some v) →
        dlookup (gd.foldl (mergeStep ti) acc) k = some (some v)) ∧
      (∀ w, dlookup gd k = some none → dlookup ti k = some (some w) →
        dlookup (gd.foldl (mergeStep ti) acc) k = some (some w)) ∧
      (dlookup gd k = none → dlookup (gd.foldl (mergeStep ti) acc) k = dlookup acc k) := by
  induction gd with
  | nil =>
    intro acc
    refine ⟨?_, ?_, fun _ => rfl⟩
    · intro v hv; cases hv
    · intro w hw _; cases hw
  | cons hd t ih =>
    obtain ⟨k₀, v₀⟩ := hd
    simp only [List.map_cons, List.nodup_cons] at hnd
    obtain ⟨hk₀, hndt⟩ := hnd
    intro acc
    by_cases hk : k₀ = k
    · subst hk
      have ht : dlookup t k₀ = none :=
        dlookup_eq_none_of_not_mem t k₀ hk₀
      have base := (ih hndt (mergeStep ti acc (k₀, v₀))).2.2 ht
      refine ⟨?_, ?_, ?_⟩
      · intro v hv
        simp only [dlookup, if_pos rfl] at hv
        obtain rfl : v₀ = some v := Option.some_injective _ hv
        rw [List.foldl_cons, base]
        simp [mergeStep, dlookup_dset_self]
      · intro w hw hti
        simp only [dlookup, if_pos rfl] at hw
        obtain rfl : v₀ = none := Option.some_injective _ hw
        rw [List.foldl_cons, base]
        simp [mergeStep, hti, dlookup_dset_self]
      · intro hnone
        simp [dlookup] at hnone
    · have hcons : dlookup ((k₀, v₀) :: t) k = dlookup t k := by
        simp [dlookup, hk]
      have hstep : dlookup (mergeStep ti acc (k₀, v₀)) k = dlookup acc k :=
        mergeStep_lookup_ne ti acc (k₀, v₀) k hk
      have iht := ih hndt (mergeStep ti acc (k₀, v₀))
      refine ⟨?_, ?_, ?_⟩
      · intro v hv
        rw [hcons] at hv
        rw [List.foldl_cons]
        exact iht.1 v hv
      · intro w hw hti
        rw [hcons] at hw
        rw [List.foldl_cons]
        exact iht.2.1 w hw hti
      · intro hnone
        rw [hcons] at hnone
        rw [List.foldl_cons, iht.2.2 hnone, hstep]

/-- C9: mm_to_moa returns missing whenever mm is missing, the distance is
missing, or the distance is non-positive; and any value it does return comes
from a strictly positive distance, so the divisor distance_m * 1000 is never
zero and the formula is exactly the one in the source.  Totality of mmToMoa
models the fact that the function never raises. -/
theorem mmToMoa_total_guards (mm d : Option ℚ) :
    ((mm = none ∨ d = none ∨ (∃ q, d = some q ∧ q ≤ 0)) → mmToMoa mm d = none) ∧
    (∀ q, mmToMoa mm d = some q →
      ∃ m dv, mm = some m ∧ d = some dv ∧ 0 < dv ∧ dv * 1000 ≠ 0 ∧
        q = (m * 3438) / (dv * 1000)) := by
  constructor
  · rintro (rfl | rfl | ⟨q, rfl, hq⟩)
    · cases d <;> rfl
    · cases mm <;> rfl
    · cases mm with
      | none => rfl
      | some m => simp [mmToMoa, if_pos hq]
  · intro q hq
    cases mm with
    | none => cases d <;> simp [mmToMoa] at hq
    | some m =>
      cases d with
      | none => simp [mmToMoa] at hq
      | some dv =>
        by_cases hdv : dv ≤ 0
        · simp [mmToMoa, if_pos hdv] at hq
        · have hpos : 0 < dv := lt_of_not_ge hdv
          refine ⟨m, dv, rfl, rfl, hpos, ?_, ?_⟩
          · exact mul_ne_zero (ne_of_gt hpos) (by norm_num)
          · simp only [mmToMoa, if_neg hdv, Option.some.injEq] at hq
            exact hq.symm

/-- Witness for C9 at mm = 100, distance = 0. -/
theorem mmToMoa_total_guards_witness :
    ((some (100 : ℚ) = none ∨ (some (0 : ℚ) : Option ℚ) = none ∨
      (∃ q, (some (0 : ℚ) : Option ℚ) = some q ∧ q ≤ 0))) ∧
    mmToMoa (some 100) (some 0) = none :=
  ⟨Or.inr (Or.inr ⟨0, rfl, le_refl 0⟩),
   (mmToMoa_total_guards (some 100) (some 0)).1 (Or.inr (Or.inr ⟨0, rfl, le_refl 0⟩))⟩

/-- C3 counterexample: mm_to_moa(100, 300) evaluates to 1.146, which is not
within 0.01 of the claimed reference value 11.46. -/
theorem mmToMoa_reference_value_refuted :
    mmToMoa (some 100) (some 300) = some (573 / 500) ∧
    ¬ (|(573 : ℚ) / 500 - 1146 / 100| ≤ 1 / 100) := by
  constructor
  · norm_num [mmToMoa]
  · intro h
    rw [abs_of_neg (by norm_num)] at h
    norm_num at h

/-- C3 amended: with the formula MOA = (mm * 3438) / (distance_m * 1000), the
reference value of mm_to_moa(100, 300) is 1.146 (not 11.46) to within 0.01;
the missing-input and zero-distance cases return missing as claimed. -/
theorem mmToMoa_reference_values :
    mmToMoa (some 100) (some 300) = some (573 / 500) ∧
    |(573 : ℚ) / 500 - 1146 / 1000| ≤ 1 / 100 ∧
    mmToMoa none (some 300) = none ∧
    mmToMoa (some 100) (some 0) = none := by
  refine ⟨by norm_num [mmToMoa], by norm_num, rfl, by norm_num [mmToMoa]⟩

/-- C10: a numeric range predicate whose minimum or maximum bound input is the
empty string performs no filtering at all, in both the plain and the
selection-preserving variants: the bound test comes before any column access,
so the frame passes through unchanged, violating rows included. -/
theorem oneSidedBound_noFiltering (proj : Row → Option ℚ) (colName : String)
    (mn mx : BoundInput) (f : Frame)
    (h : mn = BoundInput.empty ∨ mx = BoundInput.empty) :
    rangeStep proj colName mn mx f = f ∧ selRangeStep proj colName mn mx f = f := by
  rcases h with rfl | rfl
  · cases mx <;> exact ⟨rfl, rfl⟩
  · cases mn <;> exact ⟨rfl, rfl⟩

/-- A row violating a half-open bound, for the C10 witness. -/
def violatingRow : Row := { shots := some 50 }

/-- A one-row frame whose row violates the supplied upper bound. -/
def violatingFrame : Frame :=
  { hasSel := false, cols := ["test_id", "date", "shots"],
    entries := [⟨0, violatingRow, true⟩] }

/-- Witness for C10: with only the maximum bound 10 supplied, a frame whose
single row has 50 shots passes through untouched. -/
theorem oneSidedBound_noFiltering_witness :
    (BoundInput.empty = BoundInput.empty ∨ BoundInput.val (10 : ℚ) = BoundInput.empty) ∧
    (rangeStep Row.shots "shots" BoundInput.empty (BoundInput.val 10) violatingFrame =
      violatingFrame ∧
     selRangeStep Row.shots "shots" BoundInput.empty (BoundInput.val 10) violatingFrame =
      violatingFrame) :=
  ⟨Or.inl rfl,
   oneSidedBound_noFiltering Row.shots "shots" BoundInput.empty (BoundInput.val 10)
     violatingFrame (Or.inl rfl)⟩

/-- A frame whose table lacks the shots column entirely: no scanned test
provided the field, so the merge loop emitted no such key and pandas built no
such column; the single row's shots value is missing. -/
def noShotsColFrame : Frame :=
  { hasSel := false, cols := ["test_id", "date"],
    entries := [⟨0, { test_id := "A" }, true⟩] }

/-- C4 counterexample: when the shots column is absent from the table, the
applied [10, 20] shots predicate keeps the row whose shots value is missing —
the source's column-existence guard skips the whole branch — so a
missing-valued row is in the filtered output, contradicting the claim's
"for every table".  The plain-mask shape behaves the same way, and the
backward-compatibility shape instead raises out of apply_filters. -/
theorem rangeFilter_missing_column_keeps_row :
    (⟨0, { test_id := "A" }, true⟩ : Entry) ∈
      (selRangeStep Row.shots "shots" (BoundInput.val 10) (BoundInput.val 20)
        noShotsColFrame).entries ∧
    (⟨0, { test_id := "A" }, true⟩ : Entry) ∈
      (rangeStep Row.shots "shots" (BoundInput.val 10) (BoundInput.val 20)
        noShotsColFrame).entries ∧
    Row.shots ({ test_id := "A" } : Row) = none ∧
    (compatStep Row.group_es_mm "group_es_mm" (some (BoundInput.val 10))
      (some (BoundInput.val 20)) noShotsColFrame).toOption = none := by
  decide

/-- C4 amended: when the predicate's field exists as a column of the table, a
row survives an applied numeric range predicate, in any of the three shapes
the source uses (plain mask with notna, the selection-preserving variant, and
the backward-compatibility mask without notna), only if its value for the
field is present and lies between the bounds; a missing value is never
treated as in-range.  When the column is absent, the guarded shapes perform
no filtering at all and the backward-compatibility shape raises. -/
theorem rangeFilter_requires_present_in_range (proj : Row → Option ℚ)
    (colName : String) (a b : ℚ) (f : Frame) (e : Entry)
    (hcol : f.cols.contains colName = true) :
    (e ∈ (rangeStep proj colName (BoundInput.val a) (BoundInput.val b) f).entries →
      ∃ v, proj e.row = some v ∧ a ≤ v ∧ v ≤ b) ∧
    (e ∈ (selRangeStep proj colName (BoundInput.val a) (BoundInput.val b) f).entries →
      ∃ v, proj e.row = some v ∧ a ≤ v ∧ v ≤ b) ∧
    (∀ g, compatStep proj colName (some (BoundInput.val a)) (some (BoundInput.val b)) f =
        Except.ok g → e ∈ g.entries →
      ∃ v, proj e.row = some v ∧ a ≤ v ∧ v ≤ b) := by
  have key : ∀ (e' : Entry) (es : List Entry),
      e' ∈ es.filter (fun x =>
        (proj x.row).isSome && pandasGe (proj x.row) a && pandasLe (proj x.row) b) →
      ∃ v, proj e'.row = some v ∧ a ≤ v ∧ v ≤ b := by
    intro e' es hmem
    rw [List.mem_filter] at hmem
    obtain ⟨-, hcond⟩ := hmem
    cases hv : proj e'.row with
    | none => rw [hv] at hcond; simp [pandasGe] at hcond
    | some v =>
      rw [hv] at hcond
      simp only [pandasGe, pandasLe, Option.isSome_some, Bool.true_and,
        Bool.and_eq_true, decide_eq_true_eq] at hcond
      exact ⟨v, rfl, hcond.1, hcond.2⟩
  refine ⟨?_, ?_, ?_⟩
  · intro h
    simp only [rangeStep] at h
    rw [if_pos hcol] at h
    exact key e _ h
  · intro h
    simp only [selRangeStep] at h
    rw [if_pos hcol] at h
    split at h
    · split at h
      · rw [List.mem_map] at h
        obtain ⟨e', he', rfl⟩ := h
        exact key e' _ he'
      · exact key e _ h
    · rw [if_neg (by simp)] at h
      exact key e _ h
  · intro g hok hmem
    simp only [compatStep] at hok
    rw [if_pos hcol] at hok
    injection hok with hg
    subst hg
    rw [List.mem_filter] at hmem
    obtain ⟨-, hcond⟩ := hmem
    cases hv : proj e.row with
    | none => rw [hv] at hcond; simp [pandasGe] at hcond
    | some v =>
      rw [hv] at hcond
      simp only [pandasGe, pandasLe, Bool.and_eq_true, decide_eq_true_eq] at hcond
      exact ⟨v, rfl, hcond.1, hcond.2⟩

/-- A row with a present shots value inside the bounds, for the C4 witness. -/
def inRangeRow : Row := { shots := some 5 }

/-- A one-row frame whose table has the shots column, for the C4 witness. -/
def inRangeFrame : Frame :=
  { hasSel := false, cols := ["test_id", "date", "shots"],
    entries := [⟨0, inRangeRow, true⟩] }

/-- Witness for C4: with the shots column present, the surviving row of a
concrete [1, 10] shots filter has a present value between the bounds. -/
theorem rangeFilter_requires_present_in_range_witness :
    (inRangeFrame.cols.contains "shots" = true ∧
     (⟨0, inRangeRow, true⟩ : Entry) ∈
       (rangeStep Row.shots "shots" (BoundInput.val 1) (BoundInput.val 10)
         inRangeFrame).entries) ∧
    (∃ v, Row.shots (⟨0, inRangeRow, true⟩ : Entry).row = some v ∧ (1 : ℚ) ≤ v ∧ v ≤ 10) :=
  ⟨⟨by decide, by decide⟩,
   (rangeFilter_requires_present_in_range Row.shots "shots" 1 10 inRangeFrame
     ⟨0, inRangeRow, true⟩ (by decide)).1 (by decide)⟩

/-- C5: for any field of the YAML record other than test_id, a non-missing
file value wins regardless of the parsed value; a missing file value falls
back to a non-missing parsed value; and test_id is always the value taken
from the parsed record, never overwritten by file content. -/
theorem merge_precedence_fallback (ti gd : Rec) (tid : Option Value) (k : String)
    (v : Value) (hnd : (gd.map Prod.fst).Nodup) (hk : k ≠ "test_id") :
    (dlookup gd k = some (some v) →
      dlookup (mergeRecords ti gd tid) k = some (some v)) ∧
    ((dlookup gd k = some none ∨ dlookup gd k = none) → dlookup ti k = some (some v) →
      dlookup (mergeRecords ti gd tid) k = some (some v)) ∧
    dlookup (mergeRecords ti gd tid) "test_id" = some tid := by
  have hset : ∀ X : Rec, dlookup (dset X "test_id" tid) k = dlookup X k :=
    fun X => dlookup_dset_ne X "test_id" k tid hk
  have base := mergeFold_lookup ti gd k hnd ti
  refine ⟨?_, ?_, ?_⟩
  · intro hgd
    simp only [mergeRecords]
    rw [hset]
    exact base.1 v hgd
  · rintro (hgd | hgd) hti
    · simp only [mergeRecords]
      rw [hset]
      exact base.2.1 v hgd hti
    · simp only [mergeRecords]
      rw [hset, base.2.2 hgd]
      exact hti
  · simp only [mergeRecords]
    exact dlookup_dset_self _ _ _

/-- Parsed record used by the C5 witness. -/
def witnessParsedRec : Rec :=
  [("test_id", some (Value.str "T")), ("powder_brand", some (Value.str "ADI"))]

/-- File record used by the C5 witness. -/
def witnessFileRec : Rec :=
  [("powder_brand", some (Value.str "Hodgdon")), ("shots", none)]

/-- Witness for C5: a concrete merge where the file's powder_brand overrides
the parsed one and test_id stays the parsed value. -/
theorem merge_precedence_fallback_witness :
    ((witnessFileRec.map Prod.fst).Nodup ∧ ("powder_brand" : String) ≠ "test_id") ∧
    (dlookup (mergeRecords witnessParsedRec witnessFileRec (some (Value.str "T")))
        "powder_brand" = some (some (Value.str "Hodgdon")) ∧
     dlookup (mergeRecords witnessParsedRec witnessFileRec (some (Value.str "T")))
        "test_id" = some (some (Value.str "T"))) :=
  ⟨⟨by decide, by decide⟩,
   ⟨(merge_precedence_fallback witnessParsedRec witnessFileRec (some (Value.str "T"))
       "powder_brand" (Value.str "Hodgdon") (by decide) (by decide)).1 (by decide),
    (merge_precedence_fallback witnessParsedRec witnessFileRec (some (Value.str "T"))
       "powder_brand" (Value.str "Hodgdon") (by decide) (by decide)).2.2⟩⟩

/-- C6 counterexample: parsing the non-matching directory name "badname"
produces a record whose numeric fields hold the sentinel number 0 — a present
numeric value, not a missing marker as the claim states. -/
theorem parser_fallback_zero_sentinel :
    dlookup (extract_test_info_from_path "badname") "distance_m" =
      some (some (Value.num 0)) ∧
    dlookup (extract_test_info_from_path "badname") "powder_charge_gr" =
      some (some (Value.num 0)) ∧
    dlookup (extract_test_info_from_path "badname") "test_id" =
      some (some (Value.str "badname")) := by
  decide

/-- C6 amended: for every directory name the parser body rejects, the parser
returns a degraded record that keeps test_id as the directory name, sets the
string fields to the literal "Unknown", and sets the five numeric fields
(distance_m, bullet_weight_gr, powder_charge_gr, coal_in, b2o_in) to the
sentinel number 0 rather than to a missing marker. -/
theorem parser_failure_degraded (name : String)
    (h : extractBody name = Except.error ()) :
    dlookup (extract_test_info_from_path name) "test_id" =
      some (some (Value.str name)) ∧
    dlookup (extract_test_info_from_path name) "date" =
      some (some (Value.str "Unknown")) ∧
    dlookup (extract_test_info_from_path name) "calibre" =
      some (some (Value.str "Unknown")) ∧
    dlookup (extract_test_info_from_path name) "distance_m" =
      some (some (Value.num 0)) ∧
    dlookup (extract_test_info_from_path name) "bullet_weight_gr" =
      some (some (Value.num 0)) ∧
    dlookup (extract_test_info_from_path name) "powder_charge_gr" =
      some (some (Value.num 0)) ∧
    dlookup (extract_test_info_from_path name) "coal_in" =
      some (some (Value.num 0)) ∧
    dlookup (extract_test_info_from_path name) "b2o_in" =
      some (some (Value.num 0)) := by
  simp only [extract_test_info_from_path, h]
  exact ⟨rfl, rfl, rfl, rfl, rfl, rfl, rfl, rfl⟩

/-- Witness for C6 at the concrete rejected name "nodate". -/
theorem parser_failure_degraded_witness :
    extractBody "nodate" = Except.error () ∧
    dlookup (extract_test_info_from_path "nodate") "distance_m" =
      some (some (Value.num 0)) :=
  ⟨rfl, (parser_failure_degraded "nodate" rfl).2.2.2.1⟩

/-- A test directory whose YAML stores a group size in mm, no MOA value, and
whose name carries the 300 m distance. -/
def moaGapDir : TestDir :=
  { name := "2025-04-15__300m_6mm_Tikka_Lapua_Berger_Hybrid_105gr_ADI_2208_41.5gr_2.800in_2.200in_CCI_BR4",
    yaml := YamlFile.content { group_es_mm := some (Value.num 100) } }

/-- C2 counterexample: after the corpus-building merge the record has
group_es_mm = 100 and merged distance_m = 300, yet group_es_moa is absent from
the record: the corpus builder performs no mm-to-MOA fill-in at all. -/
theorem corpus_merge_no_moa_fill :
    dlookup (processDir moaGapDir) "group_es_mm" = some (some (Value.num 100)) ∧
    dlookup (processDir moaGapDir) "distance_m" = some (some (Value.num 300)) ∧
    dlookup (processDir moaGapDir) "group_es_moa" = none := by
  decide

/-- C2 amended: the corpus-building merge leaves an absent MOA field absent;
the mm-to-MOA fill-in exists only in the single-test view's populate_form,
where, for each linear field, a truthy mm value with a falsy stored MOA value
and a truthy distance produces the converted value (mm * 3438) / (d * 1000) in
the MOA display field, while a truthy stored MOA value is displayed
untouched. -/
theorem populate_form_moa_fill (mm d : ℚ) (moa : Option Value)
    (hmm : 0 < mm) (hd : 0 < d) :
    (pyTruthy moa = false →
      populateMoaField (some (Value.num mm)) moa (some (Value.num d)) =
        some (Value.num ((mm * 3438) / (d * 1000)))) ∧
    (pyTruthy moa = true →
      populateMoaField (some (Value.num mm)) moa (some (Value.num d)) = moa) := by
  have h1 : pyTruthy (some (Value.num mm)) = true := by
    simp [pyTruthy, ne_of_gt hmm]
  have h2 : pyTruthy (some (Value.num d)) = true := by
    simp [pyTruthy, ne_of_gt hd]
  constructor
  · intro hmoa
    simp [populateMoaField, h1, h2, hmoa, toFloat, mmToMoa, not_le.mpr hd]
  · intro hmoa
    simp [populateMoaField, hmoa]

/-- Witness for C2 at mm = 100, distance = 300, stored MOA missing. -/
theorem populate_form_moa_fill_witness :
    ((0 : ℚ) < 100 ∧ (0 : ℚ) < 300 ∧ pyTruthy none = false) ∧
    populateMoaField (some (Value.num 100)) none (some (Value.num 300)) =
      some (Value.num ((100 * 3438) / (300 * 1000))) :=
  ⟨⟨by decide, by decide, rfl⟩,
   (populate_form_moa_fill 100 300 none (by decide) (by decide)).1 rfl⟩

/-- A one-directory root for the C8 counterexample. -/
def lonelyDir : TestDir := { name := "2025-01-01__x", yaml := YamlFile.absent }

/-- C8 counterexample: the record the corpus builder returns carries no
selected field at all, so it does not satisfy selected = true; the flag only
appears later, when the analysis tab adds the column. -/
theorem corpus_output_lacks_selected :
    (loadAllTestData [lonelyDir]).map (fun r => dlookup r "selected") = [none] := by
  decide

/-- C8 amended: the corpus builder's records carry no selected field; the
analysis tab's load_data then adds the selected column with every row True,
so every record first displayed has selected = true, with the rows otherwise
unchanged. -/
theorem load_data_defaults_selected (f : Frame) (h : f.hasSel = false) :
    (loadData f).filtered_data.hasSel = true ∧
    (loadData f).filtered_data.entries.all Entry.sel = true ∧
    (loadData f).filtered_data.entries.map Entry.row = f.entries.map Entry.row := by
  refine ⟨?_, ?_, ?_⟩ <;>
    simp [loadData, ensureSelected, h, List.all_map, List.map_map, Function.comp]

/-- A selected-column-free frame for the C8 witness. -/
def plainFrame : Frame :=
  { hasSel := false, cols := ["test_id", "date"],
    entries := [⟨0, { test_id := "A" }, false⟩] }

/-- Witness for C8 on a concrete frame without the selected column. -/
theorem load_data_defaults_selected_witness :
    plainFrame.hasSel = false ∧
    (loadData plainFrame).filtered_data.entries.all Entry.sel = true :=
  ⟨rfl, (load_data_defaults_selected plainFrame rfl).2.1⟩

/-- Inserting into a list grows its length by one. -/
theorem insertRec_length (le : Rec → Rec → Bool) (r : Rec) (l : List Rec) :
    (insertRec le r l).length = l.length + 1 := by
  induction l with
  | nil => rfl
  | cons s t ih =>
    by_cases hle : le r s
    · simp [insertRec, hle]
    · simp [insertRec, hle, ih]

/-- Insertion sort preserves length. -/
theorem insSort_length (le : Rec → Rec → Bool) (l : List Rec) :
    (insSort le l).length = l.length := by
  induction l with
  | nil => rfl
  | cons r t ih => simp [insSort, insertRec_length, ih]

/-- Sorting the corpus never changes the number of records. -/
theorem sortRecords_length (rs : List Rec) :
    (sortRecords rs).length = rs.length := by
  by_cases hs : allDatesSortable rs
  · simp [sortRecords, hs, insSort_length]
  · simp [sortRecords, hs]

/-- The corpus builder yields exactly one record per scanned directory. -/
theorem loadAllTestData_length (dirs : List TestDir) :
    (loadAllTestData dirs).length = dirs.length := by
  simp [loadAllTestData, sortRecords_length]

/-- C7: a root with ten immediate subdirectories — whatever mix of corrupt and
valid — yields at least nine records and never an empty table; totality of
the per-directory pipeline models the fact that one directory's failure never
aborts the scan. -/
theorem corpus_robustness (dirs : List TestDir) (h : dirs.length = 10) :
    9 ≤ (loadAllTestData dirs).length ∧ loadAllTestData dirs ≠ [] := by
  have hlen : (loadAllTestData dirs).length = dirs.length := loadAllTestData_length dirs
  rw [hlen, h]
  refine ⟨by norm_num, ?_⟩
  intro hnil
  rw [hnil] at hlen
  rw [h] at hlen
  simp at hlen

/-- A ten-directory root with one corrupt directory (unparsable name and
invalid YAML) and nine valid ones. -/
def corpusDirs : List TestDir :=
  [{ name := "corrupt", yaml := YamlFile.invalid },
   { name := "2025-04-15__100m_223_Tikka-T3X_Hornady_Hornady_ELDM_75gr_ADI_2208_23.50gr_2.410in_1.784in_CCI_BR4", yaml := YamlFile.absent },
   { name := "2025-04-16__100m_223_Tikka-T3X_Hornady_Hornady_ELDM_75gr_ADI_2208_23.60gr_2.410in_1.784in_CCI_BR4", yaml := YamlFile.absent },
   { name := "2025-04-17__100m_223_Tikka-T3X_Hornady_Hornady_ELDM_75gr_ADI_2208_23.70gr_2.410in_1.784in_CCI_BR4", yaml := YamlFile.absent },
   { name := "2025-04-18__100m_223_Tikka-T3X_Hornady_Hornady_ELDM_75gr_ADI_2208_23.80gr_2.410in_1.784in_CCI_BR4", yaml := YamlFile.absent },
   { name := "2025-04-19__100m_223_Tikka-T3X_Hornady_Hornady_ELDM_75gr_ADI_2208_23.90gr_2.410in_1.784in_CCI_BR4", yaml := YamlFile.absent },
   { name := "2025-04-20__100m_223_Tikka-T3X_Hornady_Hornady_ELDM_75gr_ADI_2208_24.00gr_2.410in_1.784in_CCI_BR4", yaml := YamlFile.absent },
   { name := "2025-04-21__100m_223_Tikka-T3X_Hornady_Hornady_ELDM_75gr_ADI_2208_24.10gr_2.410in_1.784in_CCI_BR4", yaml := YamlFile.absent },
   { name := "2025-04-22__100m_223_Tikka-T3X_Hornady_Hornady_ELDM_75gr_ADI_2208_24.20gr_2.410in_1.784in_CCI_BR4", yaml := YamlFile.absent },
   { name := "2025-04-23__100m_223_Tikka-T3X_Hornady_Hornady_ELDM_75gr_ADI_2208_24.30gr_2.410in_1.784in_CCI_BR4", yaml := YamlFile.absent }]

/-- Witness for C7 at the concrete ten-directory root. -/
theorem corpus_robustness_witness :
    corpusDirs.length = 10 ∧
    (9 ≤ (loadAllTestData corpusDirs).length ∧ loadAllTestData corpusDirs ≠ []) :=
  ⟨rfl, corpus_robustness corpusDirs rfl⟩

/-- Row A of the selection scenario of spec section 8. -/
def analysisRowA : Row := { test_id := "A", date := some "2025-04-15" }

/-- Row B of the selection scenario. -/
def analysisRowB : Row := { test_id := "B", date := some "2025-04-16" }

/-- The all_data frame as load_all_test_data delivers it: the parser-supplied
columns are present, the selected column is not. -/
def analysisAllData : Frame :=
  { hasSel := false,
    cols := ["test_id", "date", "distance", "distance_m", "calibre", "rifle",
             "case_brand", "bullet_brand", "bullet_model", "bullet_weight",
             "bullet_weight_gr", "powder_brand", "powder_model", "powder_charge",
             "powder_charge_gr", "coal", "coal_in", "b2o", "b2o_in", "primer"],
    entries := [⟨0, analysisRowA, true⟩, ⟨1, analysisRowB, true⟩] }

/-- Widget state with no active filter: wide date range, all combos on "All",
every bound empty, no boxes checked. -/
def idleFilters : FilterInputs := { date_from := "2020-01-01", date_to := "2030-01-01" }

/-- C1: evaluation of the failing scenario.  Load two rows, manually deselect
row A in the table, then re-run apply_filters with no active filter, so both
rows survive.  The manually cleared flag does not survive: apply_filters
rebuilds from all_data, which never carries the selected column, and its tail
then sets selected = True on every row, so row A comes back selected even
though it stayed in the filtered result the whole time. -/
theorem selection_carryover_violated :
    (toggleSelection (loadData analysisAllData) 0).filtered_data.entries.map
        (fun e => (e.row.test_id, e.sel)) = [("A", false), ("B", true)] ∧
    (applyFiltersState idleFilters
        (toggleSelection (loadData analysisAllData) 0)).toOption.map
        (fun s => s.filtered_data.entries.map (fun e => (e.row.test_id, e.sel))) =
      some [("A", true), ("B", true)] := by
  decide
